import Mathlib

/-!
Shallow embedding of the demonstration program in src/rust: a single
entry point that sequences seven print-only routines (mutability,
integer types, float types, boolean, character, tuple, branching).
Each routine is embedded as the list of lines it writes to standard
output; the mutability demo is additionally embedded as an event trace
so that declaration and reassignment structure can be stated, and the
integer demo as a table of typed declarations so that range properties
of the literals can be stated.
-/

/-- One step of a straight-line demo routine: declaring an immutable
binding, declaring a mutable binding, reassigning a binding, or
printing a line. -/
inductive Ev where
  | declImm : String → Int → Ev
  | declMut : String → Int → Ev
  | assign : String → Int → Ev
  | print : String → Ev
deriving DecidableEq

/-- The lines printed by a trace, in order. -/
def printsOf (t : List Ev) : List String :=
  t.filterMap fun e =>
    match e with
    | Ev.print s => some s
    | _ => none

/-- How many times the trace reassigns the binding named `n`
(initial declarations do not count as reassignments). -/
def assignCount (t : List Ev) (n : String) : Nat :=
  t.countP fun e =>
    match e with
    | Ev.assign m _ => m == n
    | _ => false

/-- Names of the immutable bindings a trace declares, in order. -/
def declImmNames (t : List Ev) : List String :=
  t.filterMap fun e =>
    match e with
    | Ev.declImm n _ => some n
    | _ => none

/-- Names of the mutable bindings a trace declares, in order. -/
def declMutNames (t : List Ev) : List String :=
  t.filterMap fun e =>
    match e with
    | Ev.declMut n _ => some n
    | _ => none

/-- Event trace of fn test_mutable: let x = 3; print x; let mut y = 4;
print y; y = 5; print y. -/
def test_mutable_trace : List Ev :=
  [ Ev.declImm "x" 3,
    Ev.print ("x = " ++ toString (3 : Int)),
    Ev.declMut "y" 4,
    Ev.print ("y = " ++ toString (4 : Int)),
    Ev.assign "y" 5,
    Ev.print ("y = " ++ toString (5 : Int)) ]

/-- Output of fn test_mutable. -/
def test_mutable : List String := printsOf test_mutable_trace

/-- A typed integer declaration of fn test_integer: its printed type
label, signedness, bit width, and the literal assigned to it. -/
structure IntDecl where
  label : String
  signed : Bool
  width : Nat
  value : Int
deriving DecidableEq

/-- Largest value representable by a signed integer of width `w`. -/
def smax (w : Nat) : Int := 2 ^ (w - 1) - 1

/-- Smallest value representable by a signed integer of width `w`. -/
def smin (w : Nat) : Int := -(2 ^ (w - 1))

/-- Largest value representable by an unsigned integer of width `w`. -/
def umax (w : Nat) : Int := 2 ^ w - 1

/-- The ten declarations of fn test_integer, in declaration order. -/
def test_integer_decls : List IntDecl :=
  [ ⟨"i8", true, 8, 127⟩,
    ⟨"i16", true, 16, 32767⟩,
    ⟨"i32", true, 32, 2000000000⟩,
    ⟨"i64", true, 64, 2000000000⟩,
    ⟨"i128", true, 128, 2000000000⟩,
    ⟨"u8", false, 8, 255⟩,
    ⟨"u16", false, 16, 65535⟩,
    ⟨"u32", false, 32, 4000000000⟩,
    ⟨"u64", false, 64, 4000000000⟩,
    ⟨"u128", false, 128, 4000000000⟩ ]

/-- Output of fn test_integer: one line per declaration, printing the
type label and the declared literal. -/
def test_integer : List String :=
  test_integer_decls.map fun d => d.label ++ " = " ++ toString d.value

/-- Display string the language runtime produces for the 32-bit float
literal 123.45 (whose stored binary32 value is 8090419/65536; the
runtime prints the shortest decimal that round-trips to it). -/
def varf32_display : String := "123.45"

/-- Display string the language runtime produces for the 64-bit float
literal 123.456789 (shortest decimal round-tripping to the stored
binary64 value). -/
def varf64_display : String := "123.456789"

/-- Output of fn test_float. -/
def test_float : List String :=
  ["f32 = " ++ varf32_display, "f64 = " ++ varf64_display]

/-- A rational is representable as an IEEE-754 binary32 value: an
integer significand of magnitude below 2 ^ 24 scaled by an integer
power of two (the exponent range is unbounded here, which only
enlarges the set of representable values; near 123.45 the two models
coincide, so minimality over this set implies minimality over actual
binary32 values). -/
def IsB32 (q : ℚ) : Prop :=
  ∃ m : ℤ, ∃ e : ℤ, |m| < 2 ^ 24 ∧ q = (m : ℚ) * (2 : ℚ) ^ e

/-- Binary32 value stored for the 32-bit float literal 123.45 of fn
test_float (the literal rounded to the nearest representable value),
as a rational: 8090419/65536 = 123.4499969482421875. -/
def varf32 : ℚ := 8090419 / 65536

/-- Binary64 value stored for the 64-bit float literal 123.456789 of
fn test_float (nearest representable), as a rational with denominator
2 ^ 46. -/
def varf64 : ℚ := 8687499202136843 / 70368744177664

/-- One step of the float demo: declaring a binding (recording both
the literal as written and the value actually stored), transforming a
value by an arithmetic or rounding operation, or printing a line. -/
inductive FEv where
  | decl : String → ℚ → ℚ → FEv
  | compute : String → ℚ → FEv
  | print : String → FEv

/-- Number of arithmetic or rounding operations a float trace
performs. -/
def computeCount (t : List FEv) : Nat :=
  t.countP fun e =>
    match e with
    | FEv.compute _ _ => true
    | _ => false

/-- The lines printed by a float trace, in order. -/
def fPrintsOf (t : List FEv) : List String :=
  t.filterMap fun e =>
    match e with
    | FEv.print s => some s
    | _ => none

/-- Event trace of fn test_float: declare varf32 (literal 123.45,
stored value its binary32 rounding), print it; declare varf64 (literal
123.456789, stored value its binary64 rounding), print it. The
routine performs no operation of its own on either value. -/
def test_float_trace : List FEv :=
  [ FEv.decl "varf32" (12345 / 100) varf32,
    FEv.print ("f32 = " ++ varf32_display),
    FEv.decl "varf64" (123456789 / 1000000) varf64,
    FEv.print ("f64 = " ++ varf64_display) ]

/-- The boolean binding of fn test_bool. -/
def varbool : Bool := false

/-- Output of fn test_bool. -/
def test_bool : List String := ["bool = " ++ toString varbool]

/-- The character binding of fn test_char. -/
def varchar : Char := '😎'

/-- Output of fn test_char. -/
def test_char : List String := ["char = " ++ toString varchar]

/-- Binary32 value stored for the 32-bit float literal 123.456 (the
nearest representable value), as a rational: 16181625/131072 =
123.45600128173828125. -/
def vartuple_f32 : ℚ := 16181625 / 131072

/-- Display string the language runtime produces for that binary32
value (shortest round-tripping decimal). -/
def vartuple_f32_display : String := "123.456"

/-- The three-element heterogeneous tuple of fn test_tuple: an
unsigned 32-bit value, an unsigned 16-bit value, and a 32-bit float
modelled as its exact stored rational. -/
def vartuple : Nat × Nat × ℚ := (4000000000, 65535, vartuple_f32)

/-- Output of fn test_tuple: each element extracted by positional
index into its own binding and printed on its own line. -/
def test_tuple : List String :=
  [ "tup.0 = " ++ toString vartuple.1,
    "tup.1 = " ++ toString vartuple.2.1,
    "tup.2 = " ++ vartuple_f32_display ]

/-- The comparison value of fn test_branch. -/
def branch_x : Int := 5

/-- The boolean of fn test_branch. -/
def branch_varbool : Bool := false

/-- Output of fn test_branch: three conditionals over the fixed
literals; the third has no else clause. -/
def test_branch : List String :=
  (if branch_x < 5 then ["(1) This is not executed."]
   else ["(1) This is executed."]) ++
  (if branch_x > 3 then ["(2) This is executed."]
   else ["(2) This is not executed."]) ++
  (if !branch_varbool then ["(3) This is executed."] else [])

/-- The seven demonstration routines the entry point can invoke. -/
inductive Routine where
  | mutability
  | integer
  | float
  | boolean
  | character
  | tupleDemo
  | branch
deriving DecidableEq

/-- Output of each routine. -/
def routineOut : Routine → List String
  | Routine.mutability => test_mutable
  | Routine.integer => test_integer
  | Routine.float => test_float
  | Routine.boolean => test_bool
  | Routine.character => test_char
  | Routine.tupleDemo => test_tuple
  | Routine.branch => test_branch

/-- The sequence of routine invocations made by fn main, in source
order. -/
def mainCalls : List Routine :=
  [ Routine.mutability, Routine.integer, Routine.float, Routine.boolean,
    Routine.character, Routine.tupleDemo, Routine.branch ]

/-- Complete output of the program: the concatenation of the invoked
routines' outputs in invocation order. -/
def mainOut : List String := (mainCalls.map routineOut).flatten

/-- A run of the program: it takes no input and consults no external
state, so a run is a function of nothing. -/
def runProgram : Unit → List String := fun _ => mainOut

/-- C1: the entry point invokes each of the seven demonstration
routines exactly once, in the fixed order mutability, integer, float,
boolean, char, tuple, branch, and the program's output is the
concatenation of the seven routines' outputs in that order. -/
theorem main_sequences_seven_routines_once_each :
    mainCalls = [ Routine.mutability, Routine.integer, Routine.float,
      Routine.boolean, Routine.character, Routine.tupleDemo,
      Routine.branch ] ∧
    (∀ r : Routine, mainCalls.count r = 1) ∧
    mainOut = test_mutable ++ test_integer ++ test_float ++ test_bool ++
      test_char ++ test_tuple ++ test_branch := by
  refine ⟨rfl, ?_, rfl⟩
  intro r
  cases r <;> rfl

/-- C2 counterexample: it is not the case that every literal assigned
to a signed type in the integer demo is the maximum representable
value of that type; the i32 declaration holds 2000000000 while the
32-bit signed maximum is 2147483647. -/
theorem integer_signed_literals_not_all_max :
    (¬ ∀ d ∈ test_integer_decls, d.signed = true → d.value = smax d.width) ∧
    IntDecl.mk "i32" true 32 2000000000 ∈ test_integer_decls ∧
    smax 32 = 2147483647 := by
  refine ⟨?_, by decide, by decide⟩
  intro h
  have := h (IntDecl.mk "i32" true 32 2000000000) (by decide) rfl
  exact absurd this (by decide)

/-- C2 amended: the literals of the 8- and 16-bit signed types are
those types' maxima; the wider signed types all hold 2000000000, which
exceeds the 16-bit signed maximum; and every literal of a wider
unsigned type exceeds the ranges of the smaller 8- and 16-bit types. -/
theorem integer_literal_range_demonstration :
    (∀ d ∈ test_integer_decls, d.signed = true → d.width ≤ 16 →
      d.value = smax d.width) ∧
    (∀ d ∈ test_integer_decls, d.signed = true → 32 ≤ d.width →
      d.value = 2000000000 ∧ smax 16 < d.value) ∧
    (∀ d ∈ test_integer_decls, d.signed = false → 32 ≤ d.width →
      umax 16 < d.value ∧ umax 8 < d.value) := by
  refine ⟨?_, ?_, ?_⟩ <;> decide

/-- C3 counterexample: the mutability demo reassigns the mutable
binding y exactly once, not twice. -/
theorem mutable_binding_not_reassigned_twice :
    assignCount test_mutable_trace "y" = 1 ∧
    ¬ assignCount test_mutable_trace "y" = 2 := by
  decide

/-- C3 amended: the mutability demo declares one immutable binding and
one mutable binding, prints each, then reassigns the mutable binding
once, printing a line after the reassignment. -/
theorem mutable_demo_structure :
    declImmNames test_mutable_trace = ["x"] ∧
    declMutNames test_mutable_trace = ["y"] ∧
    assignCount test_mutable_trace "y" = 1 ∧
    test_mutable_trace.getLast? = some (Ev.print "y = 5") ∧
    test_mutable = ["x = 3", "y = 4", "y = 5"] := by
  decide

/-- C4: invoking the mutability demo prints exactly the three lines
x = 3, y = 4, y = 5, in that order. -/
theorem mutable_demo_output :
    test_mutable = ["x = 3", "y = 4", "y = 5"] := by
  decide

/-- C5: the integer demo prints exactly ten lines, one per type label
from i8 through u128 in declaration order, each showing the declared
literal unchanged. -/
theorem integer_demo_output :
    test_integer.length = 10 ∧
    test_integer_decls.map IntDecl.label =
      ["i8", "i16", "i32", "i64", "i128", "u8", "u16", "u32", "u64", "u128"] ∧
    test_integer = ["i8 = 127", "i16 = 32767", "i32 = 2000000000",
      "i64 = 2000000000", "i128 = 2000000000", "u8 = 255", "u16 = 65535",
      "u32 = 4000000000", "u64 = 4000000000", "u128 = 4000000000"] ∧
    test_integer =
      test_integer_decls.map (fun d => d.label ++ " = " ++ toString d.value) := by
  refine ⟨rfl, by decide, by decide, rfl⟩

/-- C6: the branching demo prints exactly the three executed lines:
x < 5 is false so the else branch of the first conditional runs,
x > 3 is true so the if branch of the second runs, and since varbool
is false the negation is true so the body of the third conditional
runs. -/
theorem branch_demo_output :
    ¬ branch_x < 5 ∧ branch_x > 3 ∧ (!branch_varbool) = true ∧
    test_branch = ["(1) This is executed.", "(2) This is executed.",
      "(3) This is executed."] := by
  refine ⟨by decide, by decide, rfl, by decide⟩

/-- C7: the tuple demo prints exactly three lines, the first two being
tup.0 = 4000000000 and tup.1 = 65535, and projecting the tuple by
positional index yields the declared integer component values
unchanged. -/
theorem tuple_demo_output :
    test_tuple.length = 3 ∧
    test_tuple.take 2 = ["tup.0 = 4000000000", "tup.1 = 65535"] ∧
    vartuple.1 = 4000000000 ∧ vartuple.2.1 = 65535 := by
  refine ⟨rfl, by decide, rfl, rfl⟩

/-- C9: the program reads no input and depends on no external state,
so any two runs produce the identical sequence of output lines, and
each of the seven routines produces a non-empty line sequence. -/
theorem program_deterministic :
    (∀ u v : Unit, runProgram u = runProgram v) ∧
    (∀ r : Routine, routineOut r ≠ []) := by
  constructor
  · intro u v
    rfl
  · intro r
    cases r <;> decide

/-- C10: the untaken branch bodies of the branching demo are
unreachable: neither of the two not-executed lines occurs anywhere in
the program's output. -/
theorem untaken_branches_never_printed :
    "(1) This is not executed." ∉ mainOut ∧
    "(2) This is not executed." ∉ mainOut := by
  decide

/-- The distance from the literal 123.45 to its stored binary32 value
is exactly 1/327680 (two fifths of one unit in the last place). -/
theorem varf32_dist_const : |(12345 / 100 : ℚ) - varf32| = 1 / 327680 := by
  have h : (12345 / 100 : ℚ) - varf32 = 1 / 327680 := by norm_num [varf32]
  rw [h, abs_of_pos (show (0 : ℚ) < 1 / 327680 by norm_num)]

/-- Every point of the 2 ^ (-17) grid is at distance at least 1/327680
from the literal 123.45. -/
theorem varf32_grid_dist (k : ℤ) :
    (1 / 327680 : ℚ) ≤ |(12345 / 100 : ℚ) - (k : ℚ) / 131072| := by
  have hne : (12345 / 100 : ℚ) - (k : ℚ) / 131072 =
      ((80904192 - 5 * k : ℤ) : ℚ) / 655360 := by
    push_cast
    ring
  have hk : 80904192 - 5 * k ≤ -2 ∨ 2 ≤ 80904192 - 5 * k := by omega
  have h2 : (2 : ℚ) ≤ |((80904192 - 5 * k : ℤ) : ℚ)| := by
    rw [← Int.cast_abs]
    have h3 : (2 : ℤ) ≤ |80904192 - 5 * k| := by
      rcases hk with h | h
      · rw [abs_of_nonpos (by omega)]
        omega
      · rw [abs_of_nonneg (by omega)]
        exact h
    exact_mod_cast h3
  rw [hne, abs_div, abs_of_pos (show (0 : ℚ) < 655360 by norm_num)]
  calc (1 : ℚ) / 327680 = 2 / 655360 := by norm_num
    _ ≤ |((80904192 - 5 * k : ℤ) : ℚ)| / 655360 := by gcongr

/-- The stored binary32 value of 123.45 is at least as close to the
literal as any representable binary32 value. -/
theorem varf32_min_dist (q : ℚ) (hq : IsB32 q) :
    |(12345 / 100 : ℚ) - varf32| ≤ |(12345 / 100 : ℚ) - q| := by
  obtain ⟨m, e, hm, rfl⟩ := hq
  rw [varf32_dist_const]
  rcases le_or_lt (-17 : ℤ) e with he | he
  · have he' : ((e + 17).toNat : ℤ) = e + 17 := Int.toNat_of_nonneg (by omega)
    have h2 : (2 : ℚ) ^ e = (2 : ℚ) ^ ((e + 17).toNat : ℤ) / (2 : ℚ) ^ (17 : ℤ) := by
      rw [← zpow_sub₀ (two_ne_zero : (2 : ℚ) ≠ 0), he',
        show e + 17 - 17 = e from by ring]
    have hq2 : (m : ℚ) * (2 : ℚ) ^ e =
        ((m * 2 ^ (e + 17).toNat : ℤ) : ℚ) / 131072 := by
      rw [h2, zpow_natCast, show ((2 : ℚ) ^ (17 : ℤ)) = 131072 from by norm_num]
      push_cast
      ring
    rw [hq2]
    exact varf32_grid_dist _
  · have h24 : (2 : ℤ) ^ 24 = 16777216 := by norm_num
    rw [h24] at hm
    have hm2 := abs_lt.mp hm
    have hmb : |m| ≤ 16777215 := abs_le.mpr (by omega)
    have h1 : |(m : ℚ)| ≤ 16777215 := by exact_mod_cast hmb
    have h2 : |(2 : ℚ) ^ e| ≤ 1 / 262144 := by
      rw [abs_of_pos (zpow_pos (by norm_num) e)]
      calc (2 : ℚ) ^ e ≤ (2 : ℚ) ^ (-18 : ℤ) :=
            zpow_le_zpow_right₀ (by norm_num) (by omega)
        _ = 1 / 262144 := by norm_num
    have hq_abs : |(m : ℚ) * (2 : ℚ) ^ e| ≤ 16777215 / 262144 := by
      rw [abs_mul]
      calc |(m : ℚ)| * |(2 : ℚ) ^ e| ≤ 16777215 * (1 / 262144) :=
            mul_le_mul h1 h2 (abs_nonneg _) (by norm_num)
        _ = 16777215 / 262144 := by norm_num
    have habs : |(12345 / 100 : ℚ)| - |(m : ℚ) * (2 : ℚ) ^ e| ≤
        |(12345 / 100 : ℚ) - (m : ℚ) * (2 : ℚ) ^ e| :=
      abs_sub_abs_le_abs_sub _ _
    have h3 : |(12345 / 100 : ℚ)| = 12345 / 100 :=
      abs_of_pos (by norm_num)
    linarith

/-- C8: the float demo's stored binary32 value for the literal 123.45
is representable, differs from the literal, and is the nearest
representable value to it (round-to-nearest); the printed lines are
exactly the f32 line and the f64 line showing 123.456789 unchanged;
and the routine itself performs no rounding or arithmetic operation —
its trace only declares the two bindings and prints them. -/
theorem float_demo_rounding :
    IsB32 varf32 ∧
    varf32 ≠ 12345 / 100 ∧
    (∀ q : ℚ, IsB32 q →
      |(12345 / 100 : ℚ) - varf32| ≤ |(12345 / 100 : ℚ) - q|) ∧
    test_float = ["f32 = 123.45", "f64 = 123.456789"] ∧
    computeCount test_float_trace = 0 ∧
    fPrintsOf test_float_trace = test_float := by
  refine ⟨⟨8090419, -16, by norm_num, ?_⟩, by norm_num [varf32], varf32_min_dist,
    rfl, rfl, rfl⟩
  rw [show ((2 : ℚ) ^ (-16 : ℤ)) = 1 / 65536 from by norm_num, varf32]
  ring
